import Mathlib

/-!
Shallow embedding of the view/transform pipeline of the 3D graphic renderer
(`ViewContext.cpp` / `ViewContext.h`).  C++ `double` values are modelled as
real numbers, the 4x4 homogeneous transforms as `Matrix (Fin 4) (Fin 4) ℝ`,
the 3x1 column vectors as `Matrix (Fin 3) (Fin 1) ℝ`, and the 4x3 vertex
batches handed to `modelToDevice` as `Matrix (Fin 4) (Fin 3) ℝ`.
Every definition mirrors the corresponding C++ function entry by entry.
-/

open Matrix

noncomputable section

abbrev Mat4 : Type := Matrix (Fin 4) (Fin 4) ℝ

abbrev Vec3 : Type := Matrix (Fin 3) (Fin 1) ℝ

abbrev VertexBatch : Type := Matrix (Fin 4) (Fin 3) ℝ

/-- The source's PI macro: `#define PI 3.14159265359` (`ViewContext.h`). -/
def PI : ℝ := 3.14159265359

/-- `ViewContext::crossProduct3X1` (`ViewContext.cpp`). -/
def ViewContext.crossProduct3X1 (a b : Vec3) : Vec3 :=
  !![a 1 0 * b 2 0 - a 2 0 * b 1 0;
     -(a 0 0 * b 2 0 - a 2 0 * b 0 0);
     a 0 0 * b 1 0 - a 1 0 * b 0 0]

/-- `ViewContext::magnitude` (`ViewContext.cpp`). -/
def ViewContext.magnitude (a : Vec3) : ℝ :=
  Real.sqrt (a 0 0 ^ 2 + a 1 0 ^ 2 + a 2 0 ^ 2)

/-- `ViewContext::normalize` (`ViewContext.cpp`). -/
def ViewContext.normalize (a : Vec3) : Vec3 :=
  !![a 0 0 / ViewContext.magnitude a;
     a 1 0 / ViewContext.magnitude a;
     a 2 0 / ViewContext.magnitude a]

/-- `ViewContext::dot` (`ViewContext.cpp`). -/
def ViewContext.dot (a b : Vec3) : ℝ :=
  a 0 0 * b 0 0 + a 1 0 * b 1 0 + a 2 0 * b 2 0

/-- `ViewContext::transformBasis` (`ViewContext.cpp`): the matrix written into
`changeBasisMatrix` from the reference point `p0`. -/
def ViewContext.transformBasis (p0 : Vec3) : Mat4 :=
  let N : Vec3 := p0
  let V : Vec3 := !![0; 1; 0]
  let L : Vec3 := ViewContext.crossProduct3X1 V N
  let l : Vec3 := ViewContext.normalize L
  let n : Vec3 := ViewContext.normalize N
  let m : Vec3 := ViewContext.crossProduct3X1 n l
  !![l 0 0, l 1 0, l 2 0, -1 * ViewContext.dot l p0;
     m 0 0, m 1 0, m 2 0, -1 * ViewContext.dot m p0;
     n 0 0, n 1 0, n 2 0, -1 * ViewContext.dot n p0;
     0, 0, 0, 1]

/-- The `translateToOrigin` matrix set up by `ViewContext::originToCenter`. -/
def translateToOriginMatrix (x y : ℝ) : Mat4 :=
  !![1, 0, 0, -x;
     0, 1, 0, -y;
     0, 0, 1, 0;
     0, 0, 0, 1]

/-- The `translateFromOrigin` matrix set up by `ViewContext::originToCenter`. -/
def translateFromOriginMatrix (x y : ℝ) : Mat4 :=
  !![1, 0, 0, x;
     0, 1, 0, y;
     0, 0, 1, 0;
     0, 0, 0, 1]

/-- The mutable state of a `ViewContext` object (`ViewContext.h`). -/
structure ViewContext where
  zf : ℝ
  hdeg : ℝ
  vdeg : ℝ
  p0 : Vec3
  toModelCoordinates : Mat4
  toDeviceCoordinates : Mat4
  changeBasisMatrix : Mat4
  hOrbitMatrix : Mat4
  vOrbitMatrix : Mat4
  translateToOrigin : Mat4
  translateFromOrigin : Mat4

/-- The constructor `ViewContext::ViewContext(x0, y0, z0, x, y, zf)`:
`createTransformMatricies` + `resetTransformMatricies` set the four transform
matrices to identity, `transformBasis` fills `changeBasisMatrix`, and
`originToCenter` installs the two centering translations and pre-multiplies
`toDeviceCoordinates` by `translateFromOrigin`. -/
def ViewContext.init (x0 y0 z0 : ℤ) (x y : ℤ) (zf : ℝ) : ViewContext :=
  let p0 : Vec3 := !![(x0 : ℝ); (y0 : ℝ); (z0 : ℝ)]
  { zf := zf
    hdeg := 0
    vdeg := 0
    p0 := p0
    toModelCoordinates := 1
    toDeviceCoordinates := translateFromOriginMatrix (x : ℝ) (y : ℝ) * 1
    changeBasisMatrix := ViewContext.transformBasis p0
    hOrbitMatrix := 1
    vOrbitMatrix := 1
    translateToOrigin := translateToOriginMatrix (x : ℝ) (y : ℝ)
    translateFromOrigin := translateFromOriginMatrix (x : ℝ) (y : ℝ) }

/-- The local 4x4 `scale` matrix built inside `ViewContext::scale`. -/
def scaleMatrix (a b : ℝ) : Mat4 :=
  !![a, 0, 0, 0;
     0, b, 0, 0;
     0, 0, 1, 0;
     0, 0, 0, 1]

/-- The local 4x4 `undoScale` matrix built inside `ViewContext::scale`. -/
def undoScaleMatrix (a b : ℝ) : Mat4 :=
  !![1 / a, 0, 0, 0;
     0, 1 / b, 0, 0;
     0, 0, 1, 0;
     0, 0, 0, 1]

/-- `ViewContext::scale` (`ViewContext.cpp`): no zero-check is performed. -/
def ViewContext.scale (vc : ViewContext) (a b : ℝ) : ViewContext :=
  { vc with
    toDeviceCoordinates :=
      vc.translateFromOrigin * scaleMatrix a b * vc.translateToOrigin *
        vc.toDeviceCoordinates
    toModelCoordinates :=
      vc.toModelCoordinates * vc.translateFromOrigin * undoScaleMatrix a b *
        vc.translateToOrigin }

/-- The local 4x4 `rotate` matrix built inside `ViewContext::rotate`;
the local `undoRotate` matrix is entrywise this matrix at `-theta`. -/
def rotateMatrix (theta : ℝ) : Mat4 :=
  !![Real.cos theta, -1 * Real.sin theta, 0, 0;
     Real.sin theta, Real.cos theta, 0, 0;
     0, 0, 1, 0;
     0, 0, 0, 1]

/-- `ViewContext::rotate` (`ViewContext.cpp`). -/
def ViewContext.rotate (vc : ViewContext) (theta_deg : ℝ) : ViewContext :=
  let theta := theta_deg * (PI / 180)
  { vc with
    toDeviceCoordinates :=
      vc.translateFromOrigin * rotateMatrix theta * vc.translateToOrigin *
        vc.toDeviceCoordinates
    toModelCoordinates :=
      vc.toModelCoordinates * vc.translateFromOrigin * rotateMatrix (-theta) *
        vc.translateToOrigin }

/-- The local 4x4 `translate` matrix built inside `ViewContext::translate`;
the local `undoTranslate` matrix is this matrix at `(-x, -y)`. -/
def translateMatrix (x y : ℝ) : Mat4 :=
  !![1, 0, 0, x;
     0, 1, 0, y;
     0, 0, 1, 0;
     0, 0, 0, 1]

/-- `ViewContext::translate` (`ViewContext.cpp`). -/
def ViewContext.translate (vc : ViewContext) (x y : ℤ) : ViewContext :=
  { vc with
    toDeviceCoordinates :=
      vc.translateFromOrigin * translateMatrix (x : ℝ) (y : ℝ) *
        vc.translateToOrigin * vc.toDeviceCoordinates
    toModelCoordinates :=
      vc.toModelCoordinates * vc.translateFromOrigin *
        translateMatrix (-(x : ℝ)) (-(y : ℝ)) * vc.translateToOrigin }

/-- `ViewContext::hOrbit` (`ViewContext.cpp`): accumulate the angle and rebuild
`hOrbitMatrix` from scratch from the cumulative `hdeg`. -/
def ViewContext.hOrbit (vc : ViewContext) (degrees : ℝ) : ViewContext :=
  let theta := degrees * (PI / 180)
  let hdeg := vc.hdeg + theta
  { vc with
    hdeg := hdeg
    hOrbitMatrix :=
      !![Real.cos hdeg, 0, 1 * Real.sin hdeg, 0;
         0, 1, 0, 0;
         -1 * Real.sin hdeg, 0, 1 * Real.cos hdeg, 0;
         0, 0, 0, 1] }

/-- `ViewContext::vOrbit` (`ViewContext.cpp`): accumulate the angle, compute
the orbit axis `crossProduct3X1(yToPo, y)`, build `rotateToZ`, `rotateFromZ`
and `rotateZ` exactly as the source writes their entries, and overwrite
`vOrbitMatrix` with `rotateToZ * rotateZ * rotateFromZ`. -/
def ViewContext.vOrbit (vc : ViewContext) (degrees : ℝ) : ViewContext :=
  let theta := degrees * (PI / 180)
  let vdeg := vc.vdeg + theta
  let yToPo : Vec3 := !![vc.p0 0 0; 0; vc.p0 2 0]
  let y : Vec3 := !![0; 1; 0]
  let axisOfRot : Vec3 := ViewContext.crossProduct3X1 yToPo y
  let s : ℝ := Real.sqrt (axisOfRot 0 0 ^ 2 + axisOfRot 2 0 ^ 2)
  let rotateToZ : Mat4 :=
    !![axisOfRot 2 0 / s, 0, -1 * axisOfRot 0 0 / s, 0;
       0, 1, 0, 0;
       axisOfRot 0 0 / s, 0, axisOfRot 2 0 / s, 0;
       0, 0, 0, 1]
  let rotateFromZ : Mat4 :=
    !![axisOfRot 2 0 / s, 0, axisOfRot 0 0 / s, 0;
       0, 1, 0, 0;
       axisOfRot 0 0 / s, 0, -1 * axisOfRot 2 0 / s, 0;
       0, 0, 0, 1]
  let rotateZ : Mat4 :=
    !![Real.cos vdeg, -1 * Real.sin vdeg, 0, 0;
       Real.sin vdeg, Real.cos vdeg, 0, 0;
       0, 0, 1, 0;
       0, 0, 0, 1]
  { vc with
    vdeg := vdeg
    vOrbitMatrix := rotateToZ * rotateZ * rotateFromZ }

/-- `ViewContext::reset` (`ViewContext.cpp`): `resetTransformMatricies` sets
the four transform matrices back to identity, then `toDeviceCoordinates` is
pre-multiplied by `translateFromOrigin`. -/
def ViewContext.reset (vc : ViewContext) : ViewContext :=
  { vc with
    toModelCoordinates := 1
    hOrbitMatrix := 1
    vOrbitMatrix := 1
    toDeviceCoordinates := vc.translateFromOrigin * (1 : Mat4) }

/-- `ViewContext::adjustFOV` (`ViewContext.cpp`). -/
def ViewContext.adjustFOV (vc : ViewContext) (fov : ℝ) : ViewContext :=
  { vc with zf := vc.zf + fov }

/-- `ViewContext::project` (`ViewContext.cpp`): the double loop writes rows 0
and 1 of every column `i`, reading the untouched depth row `a[2][i]`. -/
def ViewContext.project (vc : ViewContext) (a : VertexBatch) : VertexBatch :=
  Matrix.of fun j i =>
    if j = 0 ∨ j = 1 then (vc.zf * a j i) / (|a 2 i| + vc.zf) else a j i

/-- `ViewContext::modelToDevice` (`ViewContext.cpp`). -/
def ViewContext.modelToDevice (vc : ViewContext) (shapeVerticies : VertexBatch) :
    VertexBatch :=
  vc.toDeviceCoordinates *
    vc.project (vc.changeBasisMatrix * (vc.vOrbitMatrix *
      (vc.hOrbitMatrix * shapeVerticies)))

/-- `ViewContext::deviceToModel` (`ViewContext.cpp`). -/
def ViewContext.deviceToModel (vc : ViewContext) (shapeVerticies : VertexBatch) :
    VertexBatch :=
  vc.changeBasisMatrix * shapeVerticies

/-- A 2D screen edit: one call to `scale`, `rotate` or `translate`. -/
inductive Edit where
  | scale (a b : ℝ)
  | rotate (theta : ℝ)
  | translate (x y : ℤ)

/-- Domain condition of an edit: `scale` factors must be non-zero
(spec section 7); `rotate` and `translate` are total. -/
def Edit.valid : Edit → Prop
  | .scale a b => a ≠ 0 ∧ b ≠ 0
  | .rotate _ => True
  | .translate _ _ => True

/-- Dispatch one edit to the corresponding mutator. -/
def applyEdit (vc : ViewContext) : Edit → ViewContext
  | .scale a b => vc.scale a b
  | .rotate t => vc.rotate t
  | .translate x y => vc.translate x y

/-- Apply a sequence of edits in order. -/
def applyEdits (vc : ViewContext) (es : List Edit) : ViewContext :=
  es.foldl applyEdit vc

/-- The 4x4 identity matrix written out entrywise. -/
theorem one_fin_four :
    (1 : Mat4) = !![1, 0, 0, 0; 0, 1, 0, 0; 0, 0, 1, 0; 0, 0, 0, 1] := by
  ext i j
  fin_cases i <;> fin_cases j <;> rfl

/-- Product of two 4x4 matrix literals, written out entrywise. -/
theorem mul_fin_four
    (a11 a12 a13 a14 a21 a22 a23 a24 a31 a32 a33 a34 a41 a42 a43 a44
     b11 b12 b13 b14 b21 b22 b23 b24 b31 b32 b33 b34 b41 b42 b43 b44 : ℝ) :
    !![a11, a12, a13, a14;
       a21, a22, a23, a24;
       a31, a32, a33, a34;
       a41, a42, a43, a44] *
    !![b11, b12, b13, b14;
       b21, b22, b23, b24;
       b31, b32, b33, b34;
       b41, b42, b43, b44] =
    !![a11*b11 + a12*b21 + a13*b31 + a14*b41, a11*b12 + a12*b22 + a13*b32 + a14*b42,
       a11*b13 + a12*b23 + a13*b33 + a14*b43, a11*b14 + a12*b24 + a13*b34 + a14*b44;
       a21*b11 + a22*b21 + a23*b31 + a24*b41, a21*b12 + a22*b22 + a23*b32 + a24*b42,
       a21*b13 + a22*b23 + a23*b33 + a24*b43, a21*b14 + a22*b24 + a23*b34 + a24*b44;
       a31*b11 + a32*b21 + a33*b31 + a34*b41, a31*b12 + a32*b22 + a33*b32 + a34*b42,
       a31*b13 + a32*b23 + a33*b33 + a34*b43, a31*b14 + a32*b24 + a33*b34 + a34*b44;
       a41*b11 + a42*b21 + a43*b31 + a44*b41, a41*b12 + a42*b22 + a43*b32 + a44*b42,
       a41*b13 + a42*b23 + a43*b33 + a44*b43, a41*b14 + a42*b24 + a43*b34 + a44*b44] := by
  ext i j
  fin_cases i <;> fin_cases j <;>
    simp [Matrix.mul_apply, Fin.sum_univ_succ, ← add_assoc]

/-- Product of a 4x4 matrix literal with a 4x3 vertex batch literal. -/
theorem mul_fin_four_batch
    (a11 a12 a13 a14 a21 a22 a23 a24 a31 a32 a33 a34 a41 a42 a43 a44
     b11 b12 b13 b21 b22 b23 b31 b32 b33 b41 b42 b43 : ℝ) :
    !![a11, a12, a13, a14;
       a21, a22, a23, a24;
       a31, a32, a33, a34;
       a41, a42, a43, a44] *
    (!![b11, b12, b13;
        b21, b22, b23;
        b31, b32, b33;
        b41, b42, b43] : VertexBatch) =
    !![a11*b11 + a12*b21 + a13*b31 + a14*b41, a11*b12 + a12*b22 + a13*b32 + a14*b42,
       a11*b13 + a12*b23 + a13*b33 + a14*b43;
       a21*b11 + a22*b21 + a23*b31 + a24*b41, a21*b12 + a22*b22 + a23*b32 + a24*b42,
       a21*b13 + a22*b23 + a23*b33 + a24*b43;
       a31*b11 + a32*b21 + a33*b31 + a34*b41, a31*b12 + a32*b22 + a33*b32 + a34*b42,
       a31*b13 + a32*b23 + a33*b33 + a34*b43;
       a41*b11 + a42*b21 + a43*b31 + a44*b41, a41*b12 + a42*b22 + a43*b32 + a44*b42,
       a41*b13 + a42*b23 + a43*b33 + a44*b43] := by
  ext i j
  fin_cases i <;> fin_cases j <;>
    simp [Matrix.mul_apply, Fin.sum_univ_succ, ← add_assoc]

/-- Entrywise congruence for 4x4 matrix literals. -/
theorem mat4_congr
    {a11 a12 a13 a14 a21 a22 a23 a24 a31 a32 a33 a34 a41 a42 a43 a44
     b11 b12 b13 b14 b21 b22 b23 b24 b31 b32 b33 b34 b41 b42 b43 b44 : ℝ}
    (h11 : a11 = b11) (h12 : a12 = b12) (h13 : a13 = b13) (h14 : a14 = b14)
    (h21 : a21 = b21) (h22 : a22 = b22) (h23 : a23 = b23) (h24 : a24 = b24)
    (h31 : a31 = b31) (h32 : a32 = b32) (h33 : a33 = b33) (h34 : a34 = b34)
    (h41 : a41 = b41) (h42 : a42 = b42) (h43 : a43 = b43) (h44 : a44 = b44) :
    !![a11, a12, a13, a14; a21, a22, a23, a24;
       a31, a32, a33, a34; a41, a42, a43, a44] =
    !![b11, b12, b13, b14; b21, b22, b23, b24;
       b31, b32, b33, b34; b41, b42, b43, b44] := by
  subst_vars
  rfl

/-- The centering pair cancels: `translateToOrigin * translateFromOrigin = 1`. -/
theorem translateToOrigin_mul_translateFromOrigin (x y : ℝ) :
    translateToOriginMatrix x y * translateFromOriginMatrix x y = 1 := by
  rw [translateToOriginMatrix, translateFromOriginMatrix, mul_fin_four, one_fin_four]
  refine mat4_congr ?_ ?_ ?_ ?_ ?_ ?_ ?_ ?_ ?_ ?_ ?_ ?_ ?_ ?_ ?_ ?_ <;> ring

/-- The centering pair cancels in the other order as well. -/
theorem translateFromOrigin_mul_translateToOrigin (x y : ℝ) :
    translateFromOriginMatrix x y * translateToOriginMatrix x y = 1 := by
  rw [translateToOriginMatrix, translateFromOriginMatrix, mul_fin_four, one_fin_four]
  refine mat4_congr ?_ ?_ ?_ ?_ ?_ ?_ ?_ ?_ ?_ ?_ ?_ ?_ ?_ ?_ ?_ ?_ <;> ring

/-- For non-zero factors the `undoScale` matrix is a left inverse of the
`scale` matrix. -/
theorem undoScale_mul_scale {a b : ℝ} (ha : a ≠ 0) (hb : b ≠ 0) :
    undoScaleMatrix a b * scaleMatrix a b = 1 := by
  rw [undoScaleMatrix, scaleMatrix, mul_fin_four, one_fin_four]
  refine mat4_congr ?_ ?_ ?_ ?_ ?_ ?_ ?_ ?_ ?_ ?_ ?_ ?_ ?_ ?_ ?_ ?_ <;>
    field_simp

/-- The `undoRotate` matrix (the rotation matrix at `-theta`) is a left
inverse of the rotation matrix at `theta`. -/
theorem undoRotate_mul_rotate (theta : ℝ) :
    rotateMatrix (-theta) * rotateMatrix theta = 1 := by
  rw [rotateMatrix, rotateMatrix, mul_fin_four, one_fin_four]
  refine mat4_congr ?_ ?_ ?_ ?_ ?_ ?_ ?_ ?_ ?_ ?_ ?_ ?_ ?_ ?_ ?_ ?_ <;>
    simp [Real.cos_neg, Real.sin_neg] <;> nlinarith [Real.sin_sq_add_cos_sq theta]

/-- The `undoTranslate` matrix is a left inverse of the `translate` matrix. -/
theorem undoTranslate_mul_translate (x y : ℝ) :
    translateMatrix (-x) (-y) * translateMatrix x y = 1 := by
  rw [translateMatrix, translateMatrix, mul_fin_four, one_fin_four]
  refine mat4_congr ?_ ?_ ?_ ?_ ?_ ?_ ?_ ?_ ?_ ?_ ?_ ?_ ?_ ?_ ?_ ?_ <;> ring

/-- Cancellation pattern shared by `scale`, `rotate` and `translate`: a
pivoted edit on `toDeviceCoordinates` followed by the matching pivoted undo
factor appended to `toModelCoordinates` cancels completely. -/
theorem edit_pair_cancel (B F T R U S : Mat4)
    (hRT : R * T = 1) (hTR : T * R = 1) (hUS : U * S = 1) :
    (B * T * U * R) * (T * S * R * F) = B * F := by
  calc (B * T * U * R) * (T * S * R * F)
      = B * (T * (U * (R * (T * (S * (R * F)))))) := by
        simp only [Matrix.mul_assoc]
    _ = B * (T * (U * (S * (R * F)))) := by
        rw [show R * (T * (S * (R * F))) = (R * T) * (S * (R * F)) from
          (Matrix.mul_assoc R T (S * (R * F))).symm, hRT, Matrix.one_mul]
    _ = B * (T * (R * F)) := by
        rw [show U * (S * (R * F)) = (U * S) * (R * F) from
          (Matrix.mul_assoc U S (R * F)).symm, hUS, Matrix.one_mul]
    _ = B * F := by
        rw [show T * (R * F) = (T * R) * F from (Matrix.mul_assoc T R F).symm,
          hTR, Matrix.one_mul]

/-- The relation between the undo pair that the pipeline actually maintains:
`toModelCoordinates * toDeviceCoordinates` equals the fixed centering
translation, and the two centering translations are mutually inverse. -/
def ViewContext.undoInvariant (vc : ViewContext) : Prop :=
  vc.toModelCoordinates * vc.toDeviceCoordinates = vc.translateFromOrigin ∧
  vc.translateToOrigin * vc.translateFromOrigin = 1 ∧
  vc.translateFromOrigin * vc.translateToOrigin = 1

/-- One valid `scale`/`rotate`/`translate` call preserves `undoInvariant`. -/
theorem undoInvariant_applyEdit {vc : ViewContext} {e : Edit}
    (h : vc.undoInvariant) (hv : e.valid) :
    (applyEdit vc e).undoInvariant := by
  obtain ⟨hBF, hRT, hTR⟩ := h
  cases e with
  | scale a b =>
      obtain ⟨ha, hb⟩ := hv
      exact ⟨(edit_pair_cancel vc.toModelCoordinates vc.toDeviceCoordinates
        vc.translateFromOrigin vc.translateToOrigin (undoScaleMatrix a b)
        (scaleMatrix a b) hRT hTR (undoScale_mul_scale ha hb)).trans hBF,
        hRT, hTR⟩
  | rotate t =>
      exact ⟨(edit_pair_cancel vc.toModelCoordinates vc.toDeviceCoordinates
        vc.translateFromOrigin vc.translateToOrigin
        (rotateMatrix (-(t * (PI / 180)))) (rotateMatrix (t * (PI / 180)))
        hRT hTR (undoRotate_mul_rotate (t * (PI / 180)))).trans hBF,
        hRT, hTR⟩
  | translate x y =>
      exact ⟨(edit_pair_cancel vc.toModelCoordinates vc.toDeviceCoordinates
        vc.translateFromOrigin vc.translateToOrigin
        (translateMatrix (-(x : ℝ)) (-(y : ℝ))) (translateMatrix (x : ℝ) (y : ℝ))
        hRT hTR (undoTranslate_mul_translate (x : ℝ) (y : ℝ))).trans hBF,
        hRT, hTR⟩

/-- Any sequence of valid edits preserves `undoInvariant`. -/
theorem undoInvariant_applyEdits {vc : ViewContext} {es : List Edit}
    (h : vc.undoInvariant) (hv : ∀ e ∈ es, e.valid) :
    (applyEdits vc es).undoInvariant := by
  induction es generalizing vc with
  | nil => exact h
  | cons e es ih =>
      exact ih (undoInvariant_applyEdit h (hv e (by simp)))
        (fun x hx => hv x (by simp [hx]))

/-- No edit ever touches the stored centering translation. -/
theorem applyEdits_translateFromOrigin (vc : ViewContext) (es : List Edit) :
    (applyEdits vc es).translateFromOrigin = vc.translateFromOrigin := by
  induction es generalizing vc with
  | nil => rfl
  | cons e es ih =>
      have h1 : applyEdits vc (e :: es) = applyEdits (applyEdit vc e) es := rfl
      rw [h1, ih]
      cases e <;> rfl

/-- A fresh pipeline satisfies `undoInvariant`. -/
theorem undoInvariant_init (x0 y0 z0 x y : ℤ) (zf : ℝ) :
    (ViewContext.init x0 y0 z0 x y zf).undoInvariant := by
  refine ⟨?_, translateToOrigin_mul_translateFromOrigin _ _,
    translateFromOrigin_mul_translateToOrigin _ _⟩
  simp [ViewContext.init]

/-- C1, counterexample: already directly after construction (eye `(50,50,0)`,
screen center `(400,400)`, `fov = 1000`, no mutator called) the product
`toModelCoordinates * toDeviceCoordinates` is NOT the identity matrix: the
constructor pre-multiplies only `toDeviceCoordinates` by the centering
translation, which `toModelCoordinates` never undoes. -/
theorem inverse_forward_not_identity :
    (ViewContext.init 50 50 0 400 400 1000).toModelCoordinates *
      (ViewContext.init 50 50 0 400 400 1000).toDeviceCoordinates ≠ 1 := by
  intro h
  have h2 : ((ViewContext.init 50 50 0 400 400 1000).toModelCoordinates *
      (ViewContext.init 50 50 0 400 400 1000).toDeviceCoordinates) 0 3 =
      (1 : Mat4) 0 3 := by rw [h]
  simp [ViewContext.init, Matrix.one_apply, translateFromOriginMatrix] at h2

/-- C1, amended: after construction and after every valid sequence of
`scale`/`rotate`/`translate` calls, `toModelCoordinates * toDeviceCoordinates`
equals the fixed centering translation `translateFromOriginMatrix x y` (the
translation by the screen center) rather than the identity; the undo pair is
exact only up to the one-time centering pre-translation installed by the
constructor. -/
theorem inverse_forward_eq_centering (x0 y0 z0 x y : ℤ) (zf : ℝ)
    (es : List Edit) (hv : ∀ e ∈ es, e.valid) :
    (applyEdits (ViewContext.init x0 y0 z0 x y zf) es).toModelCoordinates *
      (applyEdits (ViewContext.init x0 y0 z0 x y zf) es).toDeviceCoordinates =
      translateFromOriginMatrix (x : ℝ) (y : ℝ) := by
  have h := (undoInvariant_applyEdits (undoInvariant_init x0 y0 z0 x y zf) hv).1
  rw [h, applyEdits_translateFromOrigin]
  rfl

/-- C1, witness: the amended statement instantiated at a concrete pipeline
and a concrete three-edit sequence. -/
theorem inverse_forward_eq_centering_witness :
    (∀ e ∈ [Edit.scale 2 3, Edit.rotate 90, Edit.translate 10 (-10)],
      e.valid) ∧
    (applyEdits (ViewContext.init 50 50 0 400 400 1000)
        [Edit.scale 2 3, Edit.rotate 90, Edit.translate 10 (-10)]).toModelCoordinates *
      (applyEdits (ViewContext.init 50 50 0 400 400 1000)
        [Edit.scale 2 3, Edit.rotate 90, Edit.translate 10 (-10)]).toDeviceCoordinates =
      translateFromOriginMatrix ((400 : ℤ) : ℝ) ((400 : ℤ) : ℝ) :=
  ⟨by norm_num [Edit.valid],
   inverse_forward_eq_centering 50 50 0 400 400 1000
     [Edit.scale 2 3, Edit.rotate 90, Edit.translate 10 (-10)]
     (by norm_num [Edit.valid])⟩

/-- Cancellation pattern for an edit followed by its inverse edit applied to
`toDeviceCoordinates` alone. -/
theorem edit_undo_cancel (F T R U S : Mat4)
    (hRT : R * T = 1) (hTR : T * R = 1) (hUS : U * S = 1) :
    (T * U * R) * (T * S * R * F) = F := by
  calc (T * U * R) * (T * S * R * F)
      = T * (U * (R * (T * (S * (R * F))))) := by simp only [Matrix.mul_assoc]
    _ = T * (U * (S * (R * F))) := by
        rw [show R * (T * (S * (R * F))) = (R * T) * (S * (R * F)) from
          (Matrix.mul_assoc R T _).symm, hRT, Matrix.one_mul]
    _ = T * (R * F) := by
        rw [show U * (S * (R * F)) = (U * S) * (R * F) from
          (Matrix.mul_assoc U S _).symm, hUS, Matrix.one_mul]
    _ = F := by
        rw [show T * (R * F) = (T * R) * F from (Matrix.mul_assoc T R F).symm,
          hTR, Matrix.one_mul]

/-- C6: for non-zero `a`, `b`, calling `scale(a, b)` immediately followed by
`scale(1/a, 1/b)` restores `toDeviceCoordinates` to its value before the pair
of calls, in every state whose stored centering translations are mutually
inverse (which holds for every constructed pipeline). -/
theorem scale_then_inverse_scale_restores_forward (vc : ViewContext) (a b : ℝ)
    (hRT : vc.translateToOrigin * vc.translateFromOrigin = 1)
    (hTR : vc.translateFromOrigin * vc.translateToOrigin = 1)
    (ha : a ≠ 0) (hb : b ≠ 0) :
    ((vc.scale a b).scale (1 / a) (1 / b)).toDeviceCoordinates =
      vc.toDeviceCoordinates :=
  edit_undo_cancel vc.toDeviceCoordinates vc.translateFromOrigin
    vc.translateToOrigin (scaleMatrix (1 / a) (1 / b)) (scaleMatrix a b)
    hRT hTR (undoScale_mul_scale ha hb)

/-- C6, witness: the statement instantiated at a concrete pipeline with
`a = b = 2`. -/
theorem scale_then_inverse_scale_restores_forward_witness :
    ((ViewContext.init 50 50 0 400 400 1000).translateToOrigin *
        (ViewContext.init 50 50 0 400 400 1000).translateFromOrigin = 1) ∧
    ((ViewContext.init 50 50 0 400 400 1000).translateFromOrigin *
        (ViewContext.init 50 50 0 400 400 1000).translateToOrigin = 1) ∧
    ((2 : ℝ) ≠ 0) ∧
    ((((ViewContext.init 50 50 0 400 400 1000).scale 2 2).scale
        (1 / 2) (1 / 2)).toDeviceCoordinates =
      (ViewContext.init 50 50 0 400 400 1000).toDeviceCoordinates) :=
  ⟨translateToOrigin_mul_translateFromOrigin _ _,
   translateFromOrigin_mul_translateToOrigin _ _,
   by norm_num,
   scale_then_inverse_scale_restores_forward
     (ViewContext.init 50 50 0 400 400 1000) 2 2
     (translateToOrigin_mul_translateFromOrigin _ _)
     (translateFromOrigin_mul_translateToOrigin _ _)
     (by norm_num) (by norm_num)⟩

/-- C3: `project` replaces the x and y value `v` of every vertex column with
`zf * v / (|z| + zf)` where `z` is that column's depth, and leaves every
z value unchanged. -/
theorem project_spec (vc : ViewContext) (a : VertexBatch) (i : Fin 3) :
    vc.project a 0 i = vc.zf * a 0 i / (|a 2 i| + vc.zf) ∧
    vc.project a 1 i = vc.zf * a 1 i / (|a 2 i| + vc.zf) ∧
    vc.project a 2 i = a 2 i := by
  refine ⟨?_, ?_, ?_⟩ <;> simp [ViewContext.project]

/-- C9: `reset` sets `toModelCoordinates`, `hOrbitMatrix` and `vOrbitMatrix`
back to identity, re-applies only the fixed centering translation to
`toDeviceCoordinates`, and leaves the cumulative orbit angles `hdeg` and
`vdeg` unchanged. -/
theorem reset_spec (vc : ViewContext) :
    vc.reset.toModelCoordinates = 1 ∧
    vc.reset.hOrbitMatrix = 1 ∧
    vc.reset.vOrbitMatrix = 1 ∧
    vc.reset.toDeviceCoordinates = vc.translateFromOrigin ∧
    vc.reset.hdeg = vc.hdeg ∧
    vc.reset.vdeg = vc.vdeg :=
  ⟨rfl, rfl, rfl, Matrix.mul_one _, rfl, rfl⟩

/-- C10: `hOrbit`, `vOrbit` and `adjustFOV` leave both `toDeviceCoordinates`
and `toModelCoordinates` untouched. -/
theorem orbit_and_fov_preserve_screen_edit_pair (vc : ViewContext) (d f : ℝ) :
    ((vc.hOrbit d).toDeviceCoordinates = vc.toDeviceCoordinates ∧
     (vc.hOrbit d).toModelCoordinates = vc.toModelCoordinates) ∧
    ((vc.vOrbit d).toDeviceCoordinates = vc.toDeviceCoordinates ∧
     (vc.vOrbit d).toModelCoordinates = vc.toModelCoordinates) ∧
    ((vc.adjustFOV f).toDeviceCoordinates = vc.toDeviceCoordinates ∧
     (vc.adjustFOV f).toModelCoordinates = vc.toModelCoordinates) :=
  ⟨⟨rfl, rfl⟩, ⟨rfl, rfl⟩, ⟨rfl, rfl⟩⟩

/-- A 4x3 vertex batch whose every column is the model origin in homogeneous
coordinates. -/
def originBatch : VertexBatch := !![0, 0, 0; 0, 0, 0; 0, 0, 0; 1, 1, 1]

/-- `project` applied to a 4x3 batch literal, written out entrywise. -/
theorem project_batch (vc : ViewContext)
    (x0 x1 x2 y0 y1 y2 z0 z1 z2 w0 w1 w2 : ℝ) :
    vc.project !![x0, x1, x2; y0, y1, y2; z0, z1, z2; w0, w1, w2] =
    !![vc.zf * x0 / (|z0| + vc.zf), vc.zf * x1 / (|z1| + vc.zf),
       vc.zf * x2 / (|z2| + vc.zf);
       vc.zf * y0 / (|z0| + vc.zf), vc.zf * y1 / (|z1| + vc.zf),
       vc.zf * y2 / (|z2| + vc.zf);
       z0, z1, z2;
       w0, w1, w2] := by
  ext i j
  fin_cases i <;> fin_cases j <;> simp [ViewContext.project]

/-- The `changeBasisMatrix` computed by the constructor for eye `(50,50,0)`,
evaluated in closed form. -/
theorem changeBasisMatrix_eye_50_50_0 :
    (ViewContext.init 50 50 0 400 400 1000).changeBasisMatrix =
      !![0, 0, -1, 0;
         -(50 / Real.sqrt 5000), 50 / Real.sqrt 5000, 0, 0;
         50 / Real.sqrt 5000, 50 / Real.sqrt 5000, 0, -(5000 / Real.sqrt 5000);
         0, 0, 0, 1] := by
  have hs : Real.sqrt 2500 = 50 := by
    rw [show (2500 : ℝ) = 50 ^ 2 by norm_num]
    exact Real.sqrt_sq (by norm_num)
  have hmul : Real.sqrt 5000 * Real.sqrt 5000 = 5000 :=
    Real.mul_self_sqrt (by norm_num)
  have hne : Real.sqrt 5000 ≠ 0 := by positivity
  ext i j
  fin_cases i <;> fin_cases j <;>
    simp only [ViewContext.init, ViewContext.transformBasis,
      ViewContext.normalize, ViewContext.magnitude, ViewContext.crossProduct3X1,
      ViewContext.dot] <;>
    norm_num [Matrix.vecHead, Matrix.vecTail, hs] <;> ring_nf <;>
    field_simp

/-- C2: with eye `(50, 50, 0)`, screen center `(400, 400)` and `fov = 1000`,
and no mutator called, `modelToDevice` maps a vertex at the model origin to
device coordinates `x = 400`, `y = 400`. -/
theorem modelToDevice_maps_origin_to_center :
    ((ViewContext.init 50 50 0 400 400 1000).modelToDevice originBatch) 0 0 = 400 ∧
    ((ViewContext.init 50 50 0 400 400 1000).modelToDevice originBatch) 1 0 = 400 := by
  have h1 : (ViewContext.init 50 50 0 400 400 1000).modelToDevice originBatch =
      (ViewContext.init 50 50 0 400 400 1000).toDeviceCoordinates *
        (ViewContext.init 50 50 0 400 400 1000).project
          ((ViewContext.init 50 50 0 400 400 1000).changeBasisMatrix *
            originBatch) := by
    simp only [ViewContext.modelToDevice,
      show (ViewContext.init 50 50 0 400 400 1000).hOrbitMatrix = 1 from rfl,
      show (ViewContext.init 50 50 0 400 400 1000).vOrbitMatrix = 1 from rfl,
      Matrix.one_mul]
  rw [h1, changeBasisMatrix_eye_50_50_0, originBatch, mul_fin_four_batch,
    project_batch,
    show (ViewContext.init 50 50 0 400 400 1000).toDeviceCoordinates =
      translateFromOriginMatrix ((400 : ℤ) : ℝ) ((400 : ℤ) : ℝ) * 1 from rfl,
    Matrix.mul_one, translateFromOriginMatrix, mul_fin_four_batch]
  constructor <;> norm_num [ViewContext.init]

/-- C4, counterexample: `scale(0, 1)` does not leave the transform pair
unchanged; it updates `toDeviceCoordinates` (no DomainError is raised, there
is no zero-check in `ViewContext::scale`). -/
theorem scale_zero_changes_forwardTransform :
    ((ViewContext.init 50 50 0 400 400 1000).scale 0 1).toDeviceCoordinates ≠
      (ViewContext.init 50 50 0 400 400 1000).toDeviceCoordinates := by
  intro h
  have h2 := congrFun (congrFun h 0) 0
  simp only [ViewContext.scale, ViewContext.init] at h2
  norm_num [Matrix.mul_apply, Fin.sum_univ_four, translateFromOriginMatrix,
    translateToOriginMatrix, scaleMatrix, Matrix.one_apply,
    Matrix.vecHead, Matrix.vecTail] at h2

/-- C4, amended: `scale(0, 1)` raises no error and is applied unconditionally:
the first row of `toDeviceCoordinates` collapses to `(0, 0, 0, 400)` (a
singular forward transform mapping every x to the screen center), and
`toModelCoordinates` is rebuilt with the factor `1/0` (infinite in IEEE
doubles, `0` in this exact-arithmetic model), so it changes as well. -/
theorem scale_zero_updates_both_transforms :
    (((ViewContext.init 50 50 0 400 400 1000).scale 0 1).toDeviceCoordinates 0 0 = 0) ∧
    (((ViewContext.init 50 50 0 400 400 1000).scale 0 1).toDeviceCoordinates 0 1 = 0) ∧
    (((ViewContext.init 50 50 0 400 400 1000).scale 0 1).toDeviceCoordinates 0 2 = 0) ∧
    (((ViewContext.init 50 50 0 400 400 1000).scale 0 1).toDeviceCoordinates 0 3 = 400) ∧
    ((ViewContext.init 50 50 0 400 400 1000).scale 0 1).toModelCoordinates ≠
      (ViewContext.init 50 50 0 400 400 1000).toModelCoordinates := by
  refine ⟨?_, ?_, ?_, ?_, ?_⟩
  · simp only [ViewContext.scale, ViewContext.init]
    norm_num [Matrix.mul_apply, Fin.sum_univ_four, translateFromOriginMatrix,
      translateToOriginMatrix, scaleMatrix, Matrix.vecHead, Matrix.vecTail]
  · simp only [ViewContext.scale, ViewContext.init]
    norm_num [Matrix.mul_apply, Fin.sum_univ_four, translateFromOriginMatrix,
      translateToOriginMatrix, scaleMatrix, Matrix.vecHead, Matrix.vecTail]
  · simp only [ViewContext.scale, ViewContext.init]
    norm_num [Matrix.mul_apply, Fin.sum_univ_four, translateFromOriginMatrix,
      translateToOriginMatrix, scaleMatrix, Matrix.vecHead, Matrix.vecTail]
  · simp only [ViewContext.scale, ViewContext.init]
    norm_num [Matrix.mul_apply, Fin.sum_univ_four, translateFromOriginMatrix,
      translateToOriginMatrix, scaleMatrix, Matrix.vecHead, Matrix.vecTail]
  · intro h
    have h2 := congrFun (congrFun h 0) 0
    simp only [ViewContext.scale, ViewContext.init] at h2
    norm_num [Matrix.mul_apply, Fin.sum_univ_four, translateFromOriginMatrix,
      translateToOriginMatrix, undoScaleMatrix, Matrix.one_apply,
      Matrix.vecHead, Matrix.vecTail] at h2

/-- C5: with eye `(50, 50, 0)` the orbit axis `groundDir x up` is `(0, 0, 50)`
(the world z-axis), so a rotation about it by any angle must fix the z-axis:
entry `(2,2)` of such a rotation is `1`.  The matrix the code actually stores
after `vOrbit(90)` has entry `(2,2)` equal to `-1`: `rotateFromZ` is built
with a sign slip (`[2][2] = -axis_z/s` instead of `+axis_z/s`), making it a
reflection (determinant `-1`) rather than the inverse of `rotateToZ`, so
`vOrbitMatrix` is not the claimed conjugated rotation. -/
theorem vOrbit_entry_2_2_eq_neg_one :
    ((ViewContext.init 50 50 0 400 400 1000).vOrbit 90).vOrbitMatrix 2 2 = -1 := by
  have hs : Real.sqrt 2500 = 50 := by
    rw [show (2500 : ℝ) = 50 ^ 2 by norm_num]
    exact Real.sqrt_sq (by norm_num)
  simp only [ViewContext.vOrbit, ViewContext.init, ViewContext.crossProduct3X1]
  norm_num [Matrix.vecHead, Matrix.vecTail, Matrix.mul_apply, Fin.sum_univ_four, hs]

/-- C8, counterexample: with the eye directly above the target (eye
`(0, 50, 0)`), `vOrbit(90)` is neither rejected nor clamped: it overwrites
`vOrbitMatrix` (which was the identity) with a different matrix. -/
theorem vOrbit_degenerate_changes_vOrbitMatrix :
    ((ViewContext.init 0 50 0 400 400 1000).vOrbit 90).vOrbitMatrix ≠
      (ViewContext.init 0 50 0 400 400 1000).vOrbitMatrix := by
  intro h
  have h2 := congrFun (congrFun h 0) 0
  simp only [ViewContext.vOrbit, ViewContext.init, ViewContext.crossProduct3X1] at h2
  norm_num [Matrix.vecHead, Matrix.vecTail, Matrix.mul_apply, Fin.sum_univ_four,
    Matrix.one_apply] at h2

/-- C7, counterexample: four consecutive `hOrbit(90)` calls do NOT return
`hOrbitMatrix` exactly to its prior value: the cumulative angle advances by
`2 * PI` where `PI` is the program constant `3.14159265359`, which is not
exactly `2 * Real.pi`, so `cos` of it is not exactly `1`. -/
theorem four_hOrbit_not_exact_return :
    (((((ViewContext.init 50 50 0 400 400 1000).hOrbit 90).hOrbit 90).hOrbit
        90).hOrbit 90).hOrbitMatrix ≠
      (ViewContext.init 50 50 0 400 400 1000).hOrbitMatrix := by
  intro h
  have h2 := congrFun (congrFun h 0) 0
  simp [ViewContext.hOrbit, ViewContext.init, Matrix.one_apply] at h2
  rw [show (90 * (PI / 180) + 90 * (PI / 180) + 90 * (PI / 180) +
      90 * (PI / 180) : ℝ) = (2 * PI - 2 * Real.pi) + 2 * Real.pi by ring,
    Real.cos_add_two_pi] at h2
  have hlb : (0 : ℝ) < 2 * PI - 2 * Real.pi := by
    have hp := Real.pi_lt_d20
    simp only [PI]
    linarith
  have hball1 : -(2 * Real.pi) < 2 * PI - 2 * Real.pi := by
    have hp := Real.pi_gt_three
    linarith
  have hball2 : 2 * PI - 2 * Real.pi < 2 * Real.pi := by
    have hp := Real.pi_gt_three
    simp only [PI]
    linarith
  have hzero := (Real.cos_eq_one_iff_of_lt_of_lt hball1 hball2).mp h2
  linarith

/-- C7, amended: four consecutive `hOrbit(90)` calls advance the cumulative
angle `hdeg` by exactly `2 * PI` (the program constant `3.14159265359`, not
the exact `2 * Real.pi`), and since `hOrbitMatrix` is rebuilt from scratch as
the rotation about the world vertical axis by the cumulative angle, every
entry returns to within `10^-12` of its value before the four calls — close,
but not exact. -/
theorem four_hOrbit_approx_return (x0 y0 z0 x y : ℤ) (zf : ℝ) :
    (((((ViewContext.init x0 y0 z0 x y zf).hOrbit 90).hOrbit 90).hOrbit
        90).hOrbit 90).hdeg = 2 * PI ∧
    ∀ i j : Fin 4,
      |(((((ViewContext.init x0 y0 z0 x y zf).hOrbit 90).hOrbit 90).hOrbit
          90).hOrbit 90).hOrbitMatrix i j -
        (ViewContext.init x0 y0 z0 x y zf).hOrbitMatrix i j| ≤ 1 / 10 ^ 12 := by
  have harg : (90 * (PI / 180) + 90 * (PI / 180) + 90 * (PI / 180) +
      90 * (PI / 180) : ℝ) = (2 * PI - 2 * Real.pi) + 2 * Real.pi := by ring
  have hlb : (0 : ℝ) < 2 * PI - 2 * Real.pi := by
    have h := Real.pi_lt_d20
    simp only [PI]
    linarith
  have hub : (2 : ℝ) * PI - 2 * Real.pi < 1 / 10 ^ 12 := by
    have h := Real.pi_gt_d20
    simp only [PI]
    linarith
  have hcos : |Real.cos (90 * (PI / 180) + 90 * (PI / 180) + 90 * (PI / 180) +
      90 * (PI / 180)) - 1| ≤ 1 / 10 ^ 12 := by
    rw [harg, Real.cos_add_two_pi]
    have h3 := Real.one_sub_sq_div_two_le_cos (x := 2 * PI - 2 * Real.pi)
    have h4 := Real.cos_le_one (2 * PI - 2 * Real.pi)
    rw [abs_le]
    constructor <;> nlinarith [hlb, hub]
  have hsin : |Real.sin (90 * (PI / 180) + 90 * (PI / 180) + 90 * (PI / 180) +
      90 * (PI / 180))| ≤ 1 / 10 ^ 12 := by
    rw [harg, Real.sin_add_two_pi]
    refine le_trans Real.abs_sin_le_abs ?_
    rw [abs_of_pos hlb]
    linarith
  constructor
  · simp only [ViewContext.hOrbit, ViewContext.init]
    ring
  · intro i j
    fin_cases i <;> fin_cases j <;>
      simp [ViewContext.hOrbit, ViewContext.init, Matrix.one_apply,
        Matrix.vecHead, Matrix.vecTail, abs_neg] <;>
      first
        | linarith [hcos]
        | linarith [hsin]
        | norm_num

/-- C8, amended: `vOrbit` performs no degeneracy check.  With the eye directly
above the target the orbit axis is the zero vector, every frame entry is
divided by `sqrt 0 = 0` (`0/0` is NaN in IEEE doubles, `0` in this
exact-arithmetic model), and the stored `vOrbitMatrix` has an all-zero first
row: a singular matrix, not a rotation, which then propagates into every
subsequent `modelToDevice` result. -/
theorem vOrbit_degenerate_zero_row :
    (((ViewContext.init 0 50 0 400 400 1000).vOrbit 90).vOrbitMatrix 0 0 = 0) ∧
    (((ViewContext.init 0 50 0 400 400 1000).vOrbit 90).vOrbitMatrix 0 1 = 0) ∧
    (((ViewContext.init 0 50 0 400 400 1000).vOrbit 90).vOrbitMatrix 0 2 = 0) ∧
    (((ViewContext.init 0 50 0 400 400 1000).vOrbit 90).vOrbitMatrix 0 3 = 0) := by
  refine ⟨?_, ?_, ?_, ?_⟩ <;>
  · simp only [ViewContext.vOrbit, ViewContext.init, ViewContext.crossProduct3X1]
    norm_num [Matrix.vecHead, Matrix.vecTail, Matrix.mul_apply, Fin.sum_univ_four]

end
